import Mathlib

/-
Verification of the PlasmidFlow dashboard (src/plass_apps29.py) against its
natural-language specification.

The Python program is shallowly embedded:
- a pandas DataFrame becomes `Dataset` (a column list plus rows; a row is an
  association list from column name to an optional cell value, `none` playing
  the role of NaN);
- operations that can raise a Python exception (KeyError on a missing column,
  ValueError in `pivot`) return `Except String _`, the error value standing
  for the uncaught exception;
- the Dash upload payload is modelled by its parse outcome: `Option Dataset`
  for the CSV upload (`none` = `pd.read_csv` raised), and `StyleBlob` for the
  style upload (`unparseable` = `json.loads` raised);
- plotly figures become the `Figure` datatype, recording exactly the data the
  source puts into them.
-/

set_option autoImplicit false

namespace PlasmidFlow

/-- One row of the uploaded table: an association list from column name to
cell value; `none` models a NaN / missing cell. -/
abbrev Row := List (String × Option String)

/-- Cell access `row[col]`: a column absent from the association list is a
missing value (NaN). -/
def getVal (r : Row) (c : String) : Option String :=
  (List.lookup c r).join

/-- Python `str.lower()`, character by character (the source only compares
ASCII markers). Implemented structurally so that concrete instances
evaluate inside proofs. -/
def pyLower (s : String) : String :=
  ⟨s.data.map Char.toLower⟩

/-- The in-memory table (pandas DataFrame): the list of column names and the
rows. -/
structure Dataset where
  cols : List String
  rows : List Row
deriving DecidableEq

/-- `df.empty`: true when the frame has no rows or no columns. -/
def dfEmpty (df : Dataset) : Bool :=
  df.rows.isEmpty || df.cols.isEmpty

/-- The test `df[t].str.lower() == 'no'` on one cell: a NaN cell compares
unequal to the marker (pandas keeps NaN on `.str.lower()` and `!= 'no'` is
True there). -/
def isNo : Option String → Bool
  | some s => pyLower s == "no"
  | none => false

/-- `filter_by_traits(df, traits)` (src line 138): sequentially keeps the rows
whose value in each trait column is not a case-insensitive "no"; `df[t]` on a
missing column raises KeyError, modelled by `.error`. -/
def filterByTraits (df : Dataset) : List String → Except String Dataset
  | [] => .ok df
  | t :: ts =>
    if t ∈ df.cols then
      filterByTraits ⟨df.cols, df.rows.filter (fun r => !(isNo (getVal r t)))⟩ ts
    else
      .error ("KeyError: " ++ t)

/-- JSON values, the shape of `json.loads` output. -/
inductive JVal where
  | null
  | bool (b : Bool)
  | num (n : Int)
  | str (s : String)
  | arr (xs : List JVal)
  | obj (fields : List (String × JVal))

/-- An uploaded style file, modelled by the outcome of decoding and
`json.loads`: either the parsed JSON value, or an unparseable payload
(the decode or parse raised, which `load_style` catches). -/
inductive StyleBlob where
  | parsed (j : JVal)
  | unparseable (raw : String)

/-- The five style fields of the customization panel. -/
structure StyleConfig where
  node_color : String
  edge_color : String
  node_size : Int
  bg_color : String
  font_size : Int
deriving DecidableEq

/-- The initial style of the `custom-style` store (src lines 46-52). -/
def defaultStyle : StyleConfig :=
  ⟨"dodgerblue", "gray", 12, "white", 14⟩

/-- The Python style dict of a `StyleConfig`, in the key order the source
writes it. -/
def styleToJson (s : StyleConfig) : JVal :=
  .obj [("node_color", .str s.node_color), ("edge_color", .str s.edge_color),
        ("node_size", .num s.node_size), ("bg_color", .str s.bg_color),
        ("font_size", .num s.font_size)]

/-- Reading the five style fields back out of a parsed style object, the way
the chart builders consume `style['node_color']` etc.; `none` when a field is
absent or has the wrong shape. -/
def styleFromJson (j : JVal) : Option StyleConfig :=
  match j with
  | .obj fields =>
    match List.lookup "node_color" fields, List.lookup "edge_color" fields,
          List.lookup "node_size" fields, List.lookup "bg_color" fields,
          List.lookup "font_size" fields with
    | some (.str nc), some (.str ec), some (.num ns), some (.str bg), some (.num fs) =>
      some ⟨nc, ec, ns, bg, fs⟩
    | _, _, _, _, _ => none
  | _ => none

/-- `save_style` (src line 316): `json.dump` of the current store dict; the
written blob parses back to the same JSON value, so the blob is modelled by
that value. -/
def saveStyle (store : JVal) : StyleBlob :=
  .parsed store

/-- `load_style` (src line 328): with no contents the store is unchanged;
with contents, the parsed JSON replaces the store verbatim, and a parse
failure (caught `Exception`) leaves the current value. -/
def loadStyle (contents : Option StyleBlob) (current : JVal) : JVal :=
  match contents with
  | some (.parsed j) => j
  | some (.unparseable _) => current
  | none => current

/-- The `output-preview` pane: an inline message or a data table. -/
inductive Preview where
  | message (s : String)
  | table (d : Dataset)
deriving DecidableEq

/-- `update_output` (src line 226): the upload callback. The payload is
modelled by its `parse_contents` outcome (`none` = the read raised, caught by
the handler). Returns the preview children and the `stored-data` value. -/
def updateOutput (contents : Option (Option Dataset)) : Preview × Option Dataset :=
  match contents with
  | none => (.message "Please upload a CSV file to begin.", none)
  | some none => (.message "Error reading file.", none)
  | some (some df) =>
    if dfEmpty df = true ∨ "Plasmid_ID" ∉ df.cols then
      (.message "Uploaded file is invalid or missing required columns.", none)
    else
      (.table df, some df)

/-- The data of the `go.Sankey` trace built by `create_sankey`: node labels
(cell values, possibly NaN), link endpoints as label indices, unit link
values, and the styling the source attaches. -/
structure SankeySpec where
  labels : List (Option String)
  linkSource : List Nat
  linkTarget : List Nat
  linkValue : List Nat
  nodeThickness : Int
  nodeColor : String
  linkColor : String
  bgColor : String
  fontSize : Int
deriving DecidableEq

/-- The data of the figure built by `create_network`: insertion-ordered node
set, per-node positions from the seeded layout, collapsed undirected edges,
the rendered edge segments and node coordinates, and the styling. -/
structure NetworkSpec where
  nodes : List (Option String)
  positions : List (Option String × Int × Int)
  edges : List (Option String × Option String)
  edgeSegments : List ((Int × Int) × (Int × Int))
  nodeXY : List (Int × Int)
  nodeColor : String
  edgeColor : String
  nodeSize : Int
  bgColor : String
  fontSize : Int
deriving DecidableEq

/-- The data of the `px.imshow` grid built by `create_heatmap`: the pivoted
cells as (element identifier, trait, binary presence) entries, the requested
color scale and the styling. `fillna(0)` in the source is a no-op because the
melt emits every (element, trait) combination. -/
structure HeatSpec where
  entries : List (Option String × String × Nat)
  colorScale : String
  bgColor : String
  fontSize : Int
deriving DecidableEq

/-- A plotly figure as the three builders produce it: the bare `go.Figure()`
returned on an empty frame, or one of the three populated charts. -/
inductive Figure where
  | empty
  | sankey (s : SankeySpec)
  | network (n : NetworkSpec)
  | heatmap (h : HeatSpec)
deriving DecidableEq

/-- Column extraction `df[c].tolist()`: the cells of column `c` in row order;
KeyError when the column is absent. -/
def colVals (df : Dataset) (c : String) : Except String (List (Option String)) :=
  if c ∈ df.cols then
    .ok (df.rows.map (fun r => getVal r c))
  else
    .error ("KeyError: " ++ c)

/-- One step of first-occurrence deduplication: append the value unless
already present. -/
def addUnique (l : List (Option String)) (x : Option String) : List (Option String) :=
  if x ∈ l then l else l ++ [x]

/-- `pd.unique`: keep the first occurrence of each value, preserving order. -/
def dedupFirst (l : List (Option String)) : List (Option String) :=
  l.foldl addUnique []

/-- `create_sankey(df, style)` (src line 143): empty frame gives the bare
figure; otherwise labels are the deduplicated hosts, plasmids and
environments, and the links are host to plasmid then plasmid to environment,
each of unit value, endpoints given by `label_map` (the first-occurrence
index). -/
def createSankey (df : Dataset) (style : StyleConfig) : Except String Figure :=
  if dfEmpty df = true then .ok .empty
  else
    match colVals df "Host_Genome", colVals df "Plasmid_ID", colVals df "Environment" with
    | .error e, _, _ => .error e
    | .ok _, .error e, _ => .error e
    | .ok _, .ok _, .error e => .error e
    | .ok hosts, .ok pids, .ok envs =>
      let labels := dedupFirst (hosts ++ pids ++ envs)
      let src := hosts.map (fun v => labels.indexOf v)
      let tgt := pids.map (fun v => labels.indexOf v)
      let esrc := pids.map (fun v => labels.indexOf v)
      let etgt := envs.map (fun v => labels.indexOf v)
      .ok (.sankey ⟨labels, src ++ esrc, tgt ++ etgt,
        List.replicate (src ++ esrc).length 1,
        style.node_size, style.node_color, style.edge_color,
        style.bg_color, style.font_size⟩)

/-- Undirected edge equality, as `nx.Graph` collapses duplicate edges. -/
def edgeSame (a b : Option String × Option String) : Bool :=
  (a.1 == b.1 && a.2 == b.2) || (a.1 == b.2 && a.2 == b.1)

/-- Node insertion order of `G.add_node` over the rows: plasmid then
environment per row, duplicates ignored. -/
def buildNodes (prs : List (Option String × Option String)) : List (Option String) :=
  prs.foldl (fun acc pr => addUnique (addUnique acc pr.1) pr.2) []

/-- Edge insertion of `G.add_edge` over the rows, duplicate (undirected)
edges collapsed. -/
def buildEdges (prs : List (Option String × Option String)) :
    List (Option String × Option String) :=
  prs.foldl (fun acc pr => if acc.any (fun e => edgeSame e pr) then acc else acc ++ [pr]) []

/-- Modelled from the spec: the third-party force-directed layout
(`nx.spring_layout`), absent from src/. Per the spec it is an abstract
collaborator "producing node positions from a node/edge set", a pure function
of the seed, the graph and the repulsion parameter; the concrete arithmetic
here is an arbitrary such function. -/
def layoutFrom (seed : Nat) (nodes : List (Option String))
    (edges : List (Option String × Option String)) (kDen : Nat) :
    List (Option String × Int × Int) :=
  nodes.enum.map (fun pr =>
    (pr.2, Int.ofNat ((seed + 37 * pr.1 + kDen + edges.length) % 1009),
           Int.ofNat ((31 * seed + 17 * pr.1 + kDen) % 1013)))

/-- Modelled from the spec: `nx.spring_layout(G, seed=s, k=0.3/kDen)`. An
explicit seed fixes the pseudo-random stream; without one the layout draws on
ambient process randomness, modelled by `ambient`. -/
def springLayout (nodes : List (Option String))
    (edges : List (Option String × Option String)) (seed : Option Nat)
    (kDen : Nat) (ambient : Nat) : List (Option String × Int × Int) :=
  match seed with
  | some s => layoutFrom s nodes edges kDen
  | none => layoutFrom ambient nodes edges kDen

/-- Position lookup `pos[node]`; every graph node has a position, so the
default is never reached on the source's calls. -/
def posOf (pos : List (Option String × Int × Int)) (n : Option String) : Int × Int :=
  match pos.find? (fun e => e.1 == n) with
  | some e => (e.2.1, e.2.2)
  | none => (0, 0)

/-- `create_network(df, style)` (src line 173): empty frame gives the bare
figure; otherwise the plasmid-environment graph is built row by row, laid out
with the fixed seed 42 and repulsion `0.3 / len(nodes)`, and rendered as edge
segments plus labeled markers. Row access `row['Plasmid_ID']` on a missing
column raises KeyError. `ambient` is the process randomness an unseeded
layout would consume; the fixed seed ignores it. -/
def createNetwork (df : Dataset) (style : StyleConfig) (ambient : Nat) :
    Except String Figure :=
  if dfEmpty df = true then .ok .empty
  else
    match colVals df "Plasmid_ID", colVals df "Environment" with
    | .error e, _ => .error e
    | .ok _, .error e => .error e
    | .ok pids, .ok envs =>
      let prs := pids.zip envs
      let nodes := buildNodes prs
      let edges := buildEdges prs
      let pos := springLayout nodes edges (some 42) nodes.length ambient
      .ok (.network ⟨nodes, pos, edges,
        edges.map (fun e => (posOf pos e.1, posOf pos e.2)),
        nodes.map (fun n => posOf pos n),
        style.node_color, style.edge_color, style.node_size,
        style.bg_color, style.font_size⟩)

/-- The four recognized trait columns, the `value_vars` of the melt. -/
def fourTraits : List String := ["ARGs", "Virulence", "T4SS", "MGEs"]

/-- Python `str(x)` on a cell: NaN prints as "nan". -/
def pyStr : Option String → String
  | some s => s
  | none => "nan"

/-- The binary presence lambda of `create_heatmap`:
`1 if str(x).lower() != 'no' else 0`. -/
def binaryOf (x : Option String) : Nat :=
  if pyLower (pyStr x) == "no" then 0 else 1

/-- The (index, column) keys of the melted frame, whose uniqueness `pivot`
requires. -/
def heatKeys (df : Dataset) : List (Option String × String) :=
  fourTraits.flatMap (fun t => df.rows.map (fun r => (getVal r "Plasmid_ID", t)))

/-- The melted frame with the binary presence already applied: one
(element, trait, presence) entry per row and trait, traits outermost as
`pd.melt` orders them. -/
def meltEntries (df : Dataset) : List (Option String × String × Nat) :=
  fourTraits.flatMap (fun t =>
    df.rows.map (fun r => (getVal r "Plasmid_ID", t, binaryOf (getVal r t))))

/-- `create_heatmap(df, scale, style)` (src line 208): empty frame gives the
bare figure; the melt raises KeyError when `Plasmid_ID` or a trait column is
absent; the pivot raises ValueError when two melted entries share an
(element, trait) key; otherwise the binary presence grid is rendered. -/
def createHeatmap (df : Dataset) (scale : String) (style : StyleConfig) :
    Except String Figure :=
  if dfEmpty df = true then .ok .empty
  else if "Plasmid_ID" ∈ df.cols ∧ ∀ t ∈ fourTraits, t ∈ df.cols then
    if (heatKeys df).Nodup then
      .ok (.heatmap ⟨meltEntries df, scale, style.bg_color, style.font_size⟩)
    else
      .error "ValueError: Index contains duplicate entries, cannot reshape"
  else
    .error "KeyError: melt columns missing"

/-- The three tabs of the dashboard. -/
inductive Tab where
  | sankey
  | network
  | heatmap
deriving DecidableEq

/-- What `render_content` returns: an inline message or a rendered graph. -/
inductive Content where
  | message (s : String)
  | graph (f : Figure)
deriving DecidableEq

/-- Character-list prefix test. -/
def leadEq : List Char → List Char → Bool
  | [], _ => true
  | _ :: _, [] => false
  | a :: as, b :: bs => a == b && leadEq as bs

/-- Character-list substring test. -/
def seqHasSub (pat : List Char) : List Char → Bool
  | [] => leadEq pat []
  | b :: bs => leadEq pat (b :: bs) || seqHasSub pat bs

/-- `df['Environment'].str.contains(pat, case=False, na=False)` on one cell:
case-insensitive substring containment, NaN never matching. -/
def containsCI (cell : Option String) (pat : String) : Bool :=
  match cell with
  | none => false
  | some s => seqHasSub (pyLower pat).data (pyLower s).data

/-- The environment restriction of `render_content`: keep the rows whose
environment label contains the stripped filter text case-insensitively;
KeyError when the frame has no Environment column. -/
def envFilterDF (df : Dataset) (pat : String) : Except String Dataset :=
  if "Environment" ∈ df.cols then
    .ok ⟨df.cols, df.rows.filter (fun r => containsCI (getVal r "Environment") pat.trim)⟩
  else
    .error "KeyError: Environment"

/-- `render_content` (src line 254): with no stored data (None or an empty
record list) a prompt is shown; otherwise the optional environment filter is
applied, then the active tab's trait filter and builder run, with no
exception handling around them. -/
def renderContent (tab : Tab) (style : StyleConfig) (data : Option Dataset)
    (selectedEnv : Option String)
    (sankeyTraits networkTraits heatmapTraits : List String)
    (scale : String) (ambient : Nat) : Except String Content :=
  match data with
  | none => .ok (.message "Please upload a dataset.")
  | some df0 =>
    if df0.rows.isEmpty = true then .ok (.message "Please upload a dataset.")
    else
      match (match selectedEnv with
             | none => Except.ok df0
             | some s => if s = "" then Except.ok df0 else envFilterDF df0 s) with
      | .error e => .error e
      | .ok df =>
        match tab with
        | .sankey =>
          match filterByTraits df sankeyTraits with
          | .error e => .error e
          | .ok fdf =>
            match createSankey fdf style with
            | .error e => .error e
            | .ok fig => .ok (.graph fig)
        | .network =>
          match filterByTraits df networkTraits with
          | .error e => .error e
          | .ok fdf =>
            match createNetwork fdf style ambient with
            | .error e => .error e
            | .ok fig => .ok (.graph fig)
        | .heatmap =>
          match filterByTraits df heatmapTraits with
          | .error e => .error e
          | .ok fdf =>
            match createHeatmap fdf scale style with
            | .error e => .error e
            | .ok fig => .ok (.graph fig)

/-- A sample row: plasmid P1 in soil, carrying ARGs only. -/
def wRow1 : Row :=
  [("Host_Genome", some "H1"), ("Plasmid_ID", some "P1"), ("Environment", some "Soil"),
   ("ARGs", some "yes"), ("Virulence", some "no"), ("T4SS", some "no"), ("MGEs", some "no")]

/-- A sample row: plasmid P2 in water, carrying no traits. -/
def wRow2 : Row :=
  [("Host_Genome", some "H2"), ("Plasmid_ID", some "P2"), ("Environment", some "Water"),
   ("ARGs", some "no"), ("Virulence", some "no"), ("T4SS", some "no"), ("MGEs", some "no")]

/-- A well-formed two-row sample dataset. -/
def wDF : Dataset :=
  ⟨["Host_Genome", "Plasmid_ID", "Environment", "ARGs", "Virulence", "T4SS", "MGEs"],
   [wRow1, wRow2]⟩

/-- The sample dataset filtered by the ARGs trait. -/
def wFiltered : Dataset :=
  ⟨["Host_Genome", "Plasmid_ID", "Environment", "ARGs", "Virulence", "T4SS", "MGEs"],
   [wRow1]⟩

/-- A parsed table with the identifier column but no rows. -/
def wEmptyDF : Dataset := ⟨["Plasmid_ID"], []⟩

/-- A dataset whose two rows share the element identifier P1. -/
def dupDF : Dataset :=
  ⟨["Plasmid_ID", "ARGs", "Virulence", "T4SS", "MGEs"],
   [[("Plasmid_ID", some "P1"), ("ARGs", some "yes"), ("Virulence", some "yes"),
     ("T4SS", some "yes"), ("MGEs", some "yes")],
    [("Plasmid_ID", some "P1"), ("ARGs", some "no"), ("Virulence", some "no"),
     ("T4SS", some "no"), ("MGEs", some "no")]]⟩

/-- A row whose ARGs cell is missing (NaN). -/
def w10Row : Row :=
  [("Plasmid_ID", some "P9"), ("Virulence", some "no"), ("T4SS", some "no"),
   ("MGEs", some "no")]

/-- A one-row dataset with a missing ARGs cell. -/
def w10DF : Dataset := ⟨["Plasmid_ID", "ARGs", "Virulence", "T4SS", "MGEs"], [w10Row]⟩

/-- A single-element row with all four traits marked "no". -/
def w4RowNo : Row :=
  [("Plasmid_ID", some "P1"), ("ARGs", some "no"), ("Virulence", some "no"),
   ("T4SS", some "no"), ("MGEs", some "no")]

/-- A single-element row with ARGs changed to a non-"no" value. -/
def w4RowYes : Row :=
  [("Plasmid_ID", some "P1"), ("ARGs", some "yes"), ("Virulence", some "no"),
   ("T4SS", some "no"), ("MGEs", some "no")]

/-- One-element dataset, all traits absent. -/
def w4DFno : Dataset := ⟨["Plasmid_ID", "ARGs", "Virulence", "T4SS", "MGEs"], [w4RowNo]⟩

/-- One-element dataset, ARGs present. -/
def w4DFyes : Dataset := ⟨["Plasmid_ID", "ARGs", "Virulence", "T4SS", "MGEs"], [w4RowYes]⟩

/-- A one-row dataset with distinct host, element and environment. -/
def wSankeyRow : Row :=
  [("Host_Genome", some "H1"), ("Plasmid_ID", some "P1"), ("Environment", some "Soil")]

/-- One-row dataset for the flow builder. -/
def wSankeyDF : Dataset :=
  ⟨["Host_Genome", "Plasmid_ID", "Environment"], [wSankeyRow]⟩

/-- An empty dataset (columns but no rows). -/
def wEmptySankeyDF : Dataset :=
  ⟨["Host_Genome", "Plasmid_ID", "Environment"], []⟩

/-
Theorems.
-/

/-- Characterization of a successful trait filter: the columns are unchanged
and the surviving rows are exactly those passing every named column's
not-"no" test. -/
theorem filterByTraits_ok (D : Dataset) (T : List String) (R : Dataset)
    (h : filterByTraits D T = .ok R) :
    R.cols = D.cols ∧
    R.rows = D.rows.filter (fun r => T.all (fun t => !(isNo (getVal r t)))) := by
  induction T generalizing D with
  | nil =>
    simp only [filterByTraits, Except.ok.injEq] at h
    subst h
    simp
  | cons t ts ih =>
    rw [filterByTraits] at h
    by_cases hm : t ∈ D.cols
    · rw [if_pos hm] at h
      obtain ⟨hc, hr⟩ := ih _ h
      refine ⟨hc, ?_⟩
      rw [hr]
      simp only [List.filter_filter]
      apply List.filter_congr
      intro r _
      rw [List.all_cons, Bool.and_comm]
    · rw [if_neg hm] at h
      exact absurd h (by simp)

/-- The trait filter succeeds whenever every named column exists, and then
computes the single-pass filter. -/
theorem filterByTraits_ok_of_cols (df : Dataset) (T : List String)
    (h : ∀ t ∈ T, t ∈ df.cols) :
    filterByTraits df T =
      .ok ⟨df.cols, df.rows.filter (fun r => T.all (fun t => !(isNo (getVal r t))))⟩ := by
  induction T generalizing df with
  | nil => simp [filterByTraits]
  | cons t ts ih =>
    rw [filterByTraits, if_pos (h t (by simp))]
    rw [ih ⟨df.cols, df.rows.filter (fun r => !(isNo (getVal r t)))⟩
      (fun t' ht' => h t' (by simp [ht']))]
    simp only [Except.ok.injEq, Dataset.mk.injEq, true_and]
    simp only [List.filter_filter]
    apply List.filter_congr
    intro r _
    rw [List.all_cons, Bool.and_comm]

/-- C3: every row surviving the trait filter has, in each named column, a
value that is not a case-insensitive "no", and filtering by the empty trait
set is the identity. -/
theorem filter_by_traits_correct (D : Dataset) (T : List String) (R : Dataset)
    (h : filterByTraits D T = .ok R) :
    (∀ r ∈ R.rows, ∀ t ∈ T, isNo (getVal r t) = false) ∧ (T = [] → R = D) := by
  obtain ⟨hc, hr⟩ := filterByTraits_ok D T R h
  constructor
  · intro r hrm t ht
    rw [hr] at hrm
    have hpred := List.of_mem_filter hrm
    have h2 := List.all_eq_true.mp hpred t ht
    simpa using h2
  · intro hT
    subst hT
    simp at hr
    cases R
    cases D
    simp_all

/-- Witness for C3 on the sample dataset. -/
theorem filter_by_traits_correct_witness :
    (∀ r ∈ wFiltered.rows, ∀ t ∈ ["ARGs"], isNo (getVal r t) = false) ∧
    (["ARGs"] = ([] : List String) → wFiltered = wDF) :=
  filter_by_traits_correct wDF ["ARGs"] wFiltered (by rfl)

/-- C10: a missing (NaN) cell in a named trait column keeps its row through
the trait filter, and the matrix builder records that trait as present
(binary cell 1). -/
theorem missing_value_treated_present (D : Dataset) (r : Row) (t : String)
    (hc : t ∈ D.cols) (hr : r ∈ D.rows) (hv : getVal r t = none) :
    (∃ R, filterByTraits D [t] = .ok R ∧ r ∈ R.rows) ∧
    (∀ scale style spec, createHeatmap D scale style = .ok (.heatmap spec) →
      t ∈ fourTraits → (getVal r "Plasmid_ID", t, 1) ∈ spec.entries) := by
  constructor
  · refine ⟨⟨D.cols, D.rows.filter (fun r => !(isNo (getVal r t)))⟩, ?_, ?_⟩
    · rw [filterByTraits, if_pos hc, filterByTraits]
    · simp only [List.mem_filter]
      exact ⟨hr, by simp [hv, isNo]⟩
  · intro scale style spec hok ht
    rw [createHeatmap] at hok
    split at hok
    · simp at hok
    · split at hok
      · split at hok
        · simp only [Except.ok.injEq, Figure.heatmap.injEq] at hok
          subst hok
          simp only [meltEntries, List.mem_flatMap]
          refine ⟨t, ht, ?_⟩
          simp only [List.mem_map]
          exact ⟨r, hr, by rw [hv]; rfl⟩
        · simp at hok
      · simp at hok

/-- Witness for C10 on a one-row dataset whose ARGs cell is missing. -/
theorem missing_value_treated_present_witness :
    (∃ R, filterByTraits w10DF ["ARGs"] = .ok R ∧ w10Row ∈ R.rows) ∧
    (∀ scale style spec, createHeatmap w10DF scale style = .ok (.heatmap spec) →
      "ARGs" ∈ fourTraits → (getVal w10Row "Plasmid_ID", "ARGs", 1) ∈ spec.entries) :=
  missing_value_treated_present w10DF w10Row "ARGs" (by decide) (by decide) (by decide)

/-- C9: the upload handler reports an error and stores nothing when the
payload does not parse (InvalidFormat) or when the parsed table is empty or
lacks the Plasmid_ID column (MissingColumn); otherwise it stores the parsed
table. -/
theorem update_output_contract (df : Dataset) :
    updateOutput none = (.message "Please upload a CSV file to begin.", none) ∧
    updateOutput (some none) = (.message "Error reading file.", none) ∧
    (dfEmpty df = true ∨ "Plasmid_ID" ∉ df.cols →
      updateOutput (some (some df)) =
        (.message "Uploaded file is invalid or missing required columns.", none)) ∧
    (dfEmpty df = false → "Plasmid_ID" ∈ df.cols →
      updateOutput (some (some df)) = (.table df, some df)) := by
  refine ⟨rfl, rfl, ?_, ?_⟩
  · intro hcond
    simp only [updateOutput]
    rw [if_pos hcond]
  · intro h1 h2
    simp only [updateOutput]
    rw [if_neg (by simp [h1, h2])]

/-- Witness for C9 on an empty table and on the sample dataset. -/
theorem update_output_contract_witness :
    updateOutput (some (some wEmptyDF)) =
      (.message "Uploaded file is invalid or missing required columns.", none) ∧
    updateOutput (some (some wDF)) = (.table wDF, some wDF) :=
  ⟨(update_output_contract wEmptyDF).2.2.1 (by decide),
   (update_output_contract wDF).2.2.2 (by decide) (by decide)⟩

/-- C7: exporting a StyleConfig and importing the result restores it: the
store holds exactly the exported object, and reading the five fields back
gives the original StyleConfig. -/
theorem style_roundtrip (S : StyleConfig) (cur : JVal) :
    loadStyle (some (saveStyle (styleToJson S))) cur = styleToJson S ∧
    styleFromJson (styleToJson S) = some S :=
  ⟨rfl, rfl⟩

/-- C8: a style upload that fails to parse leaves the current style exactly
as it was, as does an empty upload. -/
theorem load_style_unparseable_preserves (raw : String) (cur : JVal) :
    loadStyle (some (.unparseable raw)) cur = cur ∧ loadStyle none cur = cur :=
  ⟨rfl, rfl⟩

/-- Counterexample to C1: the empty JSON object parses, lacks all five style
fields, and importing it still replaces the default style. -/
theorem load_style_missing_fields_not_noop :
    loadStyle (some (.parsed (.obj []))) (styleToJson defaultStyle) ≠
      styleToJson defaultStyle := by
  intro hcontr
  simp [loadStyle, styleToJson] at hcontr

/-- C1 (amended): a style blob that parses as JSON replaces the stored style
wholesale, whether or not the five fields are present and well-formed; only
an unparseable blob is a no-op. -/
theorem load_style_parsed_replaces_wholesale (j cur : JVal) :
    loadStyle (some (.parsed j)) cur = j :=
  rfl

/-- C6: the network builder is deterministic: with the layout seed fixed at
42, the ambient process randomness does not influence the produced figure,
so two builds on the same Dataset and StyleConfig agree (node positions
included). -/
theorem create_network_deterministic (D : Dataset) (style : StyleConfig) (a1 a2 : Nat) :
    createNetwork D style a1 = createNetwork D style a2 :=
  rfl

/-- The negative marker maps to binary 0. -/
theorem binaryOf_no : binaryOf (some "no") = 0 := rfl

/-- A missing cell maps to binary 1: `str(nan).lower()` is "nan". -/
theorem binaryOf_none : binaryOf none = 1 := rfl

/-- Any value other than a case-insensitive "no" maps to binary 1. -/
theorem binaryOf_not_no (v : String) (h : pyLower v ≠ "no") :
    binaryOf (some v) = 1 := by
  simp [binaryOf, pyStr, h]

/-- C4: on a one-element Dataset whose four traits are all "no", the matrix
builder's grid row is all zeros; changing exactly one trait to a value that
is not a case-insensitive "no" makes exactly that cell 1. -/
theorem heatmap_single_element_cells (D : Dataset) (r : Row) (p : String)
    (scale : String) (style : StyleConfig)
    (hrows : D.rows = [r])
    (hpidc : "Plasmid_ID" ∈ D.cols)
    (htrc : ∀ t ∈ fourTraits, t ∈ D.cols)
    (hpid : getVal r "Plasmid_ID" = some p) :
    ((∀ t ∈ fourTraits, getVal r t = some "no") →
      createHeatmap D scale style =
        .ok (.heatmap ⟨fourTraits.map (fun t => (some p, t, 0)), scale,
          style.bg_color, style.font_size⟩)) ∧
    (∀ t0 ∈ fourTraits, ∀ v : String, pyLower v ≠ "no" →
      (∀ t ∈ fourTraits, getVal r t = if t = t0 then some v else some "no") →
      createHeatmap D scale style =
        .ok (.heatmap ⟨fourTraits.map (fun t =>
          (some p, t, if t = t0 then 1 else 0)), scale,
          style.bg_color, style.font_size⟩)) := by
  have hcolsne : D.cols.isEmpty = false := by
    cases hD : D.cols with
    | nil => rw [hD] at hpidc; simp at hpidc
    | cons a l => rfl
  have hemp : ¬(dfEmpty D = true) := by simp [dfEmpty, hrows, hcolsne]
  have hkeys : heatKeys D = fourTraits.map (fun t => (some p, t)) := by
    simp [heatKeys, hrows, hpid, fourTraits]
  have hnodup : (heatKeys D).Nodup := by
    rw [hkeys]
    simp [fourTraits]
  constructor
  · intro hv
    have hA := hv "ARGs" (by simp [fourTraits])
    have hV := hv "Virulence" (by simp [fourTraits])
    have hT := hv "T4SS" (by simp [fourTraits])
    have hM := hv "MGEs" (by simp [fourTraits])
    rw [createHeatmap, if_neg hemp, if_pos ⟨hpidc, htrc⟩, if_pos hnodup]
    have hmelt : meltEntries D = fourTraits.map (fun t => (some p, t, 0)) := by
      simp [meltEntries, hrows, fourTraits, hpid, hA, hV, hT, hM, binaryOf_no]
    rw [hmelt]
  · intro t0 _ v hvno hv
    have hA := hv "ARGs" (by simp [fourTraits])
    have hV := hv "Virulence" (by simp [fourTraits])
    have hT := hv "T4SS" (by simp [fourTraits])
    have hM := hv "MGEs" (by simp [fourTraits])
    have hbin : ∀ t : String,
        binaryOf (if t = t0 then some v else some "no") = if t = t0 then 1 else 0 := by
      intro t
      by_cases hc : t = t0
      · simp [hc, binaryOf_not_no v hvno]
      · simp [hc, binaryOf_no]
    rw [createHeatmap, if_neg hemp, if_pos ⟨hpidc, htrc⟩, if_pos hnodup]
    have hmelt : meltEntries D =
        fourTraits.map (fun t => (some p, t, if t = t0 then 1 else 0)) := by
      simp only [meltEntries, hrows, List.map_cons, List.map_nil]
      simp only [fourTraits, List.flatMap_cons, List.flatMap_nil, List.map_cons,
        List.map_nil, List.append_nil, List.cons_append, List.nil_append, hpid,
        hA, hV, hT, hM, hbin]
    rw [hmelt]

/-- Witness for C4: the all-"no" element row is all zeros, and setting ARGs
to "yes" flips exactly the ARGs cell. -/
theorem heatmap_single_element_cells_witness :
    createHeatmap w4DFno "Blues" defaultStyle =
      .ok (.heatmap ⟨fourTraits.map (fun t => (some "P1", t, 0)), "Blues",
        defaultStyle.bg_color, defaultStyle.font_size⟩) ∧
    createHeatmap w4DFyes "Blues" defaultStyle =
      .ok (.heatmap ⟨fourTraits.map (fun t =>
        (some "P1", t, if t = "ARGs" then 1 else 0)), "Blues",
        defaultStyle.bg_color, defaultStyle.font_size⟩) :=
  ⟨(heatmap_single_element_cells w4DFno w4RowNo "P1" "Blues" defaultStyle
      rfl (by decide) (by decide) (by decide)).1 (by decide),
   (heatmap_single_element_cells w4DFyes w4RowYes "P1" "Blues" defaultStyle
      rfl (by decide) (by decide) (by decide)).2 "ARGs" (by decide) "yes"
      (by decide) (by decide)⟩

/-- C5: the flow builder returns the empty figure on an empty Dataset, and
on a one-row Dataset with pairwise-distinct host, element and environment it
returns exactly three distinct node labels and two unit-weight links, host
to element and element to environment. -/
theorem sankey_empty_and_single_row (D : Dataset) (r : Row) (h p e : String)
    (style : StyleConfig) :
    (dfEmpty D = true → createSankey D style = .ok .empty) ∧
    (D.rows = [r] → "Host_Genome" ∈ D.cols → "Plasmid_ID" ∈ D.cols →
      "Environment" ∈ D.cols →
      getVal r "Host_Genome" = some h → getVal r "Plasmid_ID" = some p →
      getVal r "Environment" = some e → h ≠ p → h ≠ e → p ≠ e →
      createSankey D style =
        .ok (.sankey ⟨[some h, some p, some e], [0, 1], [1, 2], [1, 1],
          style.node_size, style.node_color, style.edge_color,
          style.bg_color, style.font_size⟩)) := by
  constructor
  · intro hemp
    rw [createSankey, if_pos hemp]
  · intro hrows hhc hpc hec hh hp he hne1 hne2 hne3
    have hcolsne : D.cols.isEmpty = false := by
      cases hD : D.cols with
      | nil => rw [hD] at hhc; simp at hhc
      | cons a l => rfl
    have hemp : ¬(dfEmpty D = true) := by simp [dfEmpty, hrows, hcolsne]
    have hhosts : colVals D "Host_Genome" = .ok [some h] := by
      simp [colVals, hhc, hrows, hh]
    have hpids : colVals D "Plasmid_ID" = .ok [some p] := by
      simp [colVals, hpc, hrows, hp]
    have henvs : colVals D "Environment" = .ok [some e] := by
      simp [colVals, hec, hrows, he]
    have hne1' : p ≠ h := fun hq => hne1 hq.symm
    have hne2' : e ≠ h := fun hq => hne2 hq.symm
    have hne3' : e ≠ p := fun hq => hne3 hq.symm
    have hlabels : dedupFirst [some h, some p, some e] = [some h, some p, some e] := by
      simp [dedupFirst, addUnique, hne1', hne2', hne3']
    have hb1 : ((some h : Option String) == some p) = false := by
      rw [beq_eq_false_iff_ne]
      simp [hne1]
    have hb2 : ((some h : Option String) == some e) = false := by
      rw [beq_eq_false_iff_ne]
      simp [hne2]
    have hb3 : ((some p : Option String) == some e) = false := by
      rw [beq_eq_false_iff_ne]
      simp [hne3]
    have hidx0 : [some h, some p, some e].indexOf (some h) = 0 := by
      simp [List.indexOf, List.findIdx_cons]
    have hidx1 : [some h, some p, some e].indexOf (some p) = 1 := by
      simp [List.indexOf, List.findIdx_cons, hb1]
    have hidx2 : [some h, some p, some e].indexOf (some e) = 2 := by
      simp [List.indexOf, List.findIdx_cons, hb2, hb3]
    rw [createSankey, if_neg hemp, hhosts, hpids, henvs]
    simp [hlabels, hidx0, hidx1, hidx2, List.replicate]

/-- Witness for C5 on an empty Dataset and a concrete one-row Dataset. -/
theorem sankey_empty_and_single_row_witness :
    createSankey wEmptySankeyDF defaultStyle = .ok .empty ∧
    createSankey wSankeyDF defaultStyle =
      .ok (.sankey ⟨[some "H1", some "P1", some "Soil"], [0, 1], [1, 2], [1, 1],
        defaultStyle.node_size, defaultStyle.node_color, defaultStyle.edge_color,
        defaultStyle.bg_color, defaultStyle.font_size⟩) :=
  ⟨(sankey_empty_and_single_row wEmptySankeyDF wSankeyRow "H1" "P1" "Soil"
      defaultStyle).1 (by decide),
   (sankey_empty_and_single_row wSankeyDF wSankeyRow "H1" "P1" "Soil"
      defaultStyle).2 rfl (by decide) (by decide) (by decide) (by decide)
      (by decide) (by decide) (by decide) (by decide) (by decide)⟩

/-- Tagging a duplicate-free list of identifiers with each of the four trait
names yields duplicate-free (identifier, trait) keys. -/
theorem pairKeys_nodup (pids : List (Option String)) (h : pids.Nodup) :
    (fourTraits.flatMap (fun t => pids.map (fun q => (q, t)))).Nodup := by
  have hmap : ∀ s : String, (pids.map (fun q => (q, s))).Nodup := by
    intro s
    exact h.map (fun a b hab => congrArg Prod.fst hab)
  have hdisj : ∀ s1 s2 : String, s1 ≠ s2 →
      List.Disjoint (pids.map (fun q => (q, s1))) (pids.map (fun q => (q, s2))) := by
    intro s1 s2 hne x hx1 hx2
    obtain ⟨a, _, ha⟩ := List.mem_map.mp hx1
    obtain ⟨b, _, hb⟩ := List.mem_map.mp hx2
    exact hne (congrArg Prod.snd (ha.trans hb.symm))
  simp only [fourTraits, List.flatMap_cons, List.flatMap_nil, List.append_nil]
  rw [List.nodup_append]
  refine ⟨hmap _, ?_, ?_⟩
  · rw [List.nodup_append]
    refine ⟨hmap _, ?_, ?_⟩
    · rw [List.nodup_append]
      exact ⟨hmap _, hmap _, hdisj _ _ (by decide)⟩
    · intro x hx1 hx2
      rcases List.mem_append.mp hx2 with h2 | h2
      · exact hdisj _ _ (by decide) hx1 h2
      · exact hdisj _ _ (by decide) hx1 h2
  · intro x hx1 hx2
    rcases List.mem_append.mp hx2 with h2 | h2
    · exact hdisj _ _ (by decide) hx1 h2
    rcases List.mem_append.mp h2 with h3 | h3
    · exact hdisj _ _ (by decide) hx1 h3
    · exact hdisj _ _ (by decide) hx1 h3

/-- The pivot's duplicate check passes whenever the element identifiers of
the frame are duplicate-free. -/
theorem heatKeys_nodup_of_pids (df : Dataset)
    (h : (df.rows.map (fun r => getVal r "Plasmid_ID")).Nodup) :
    (heatKeys df).Nodup := by
  have hkeys : heatKeys df =
      fourTraits.flatMap (fun t =>
        (df.rows.map (fun r => getVal r "Plasmid_ID")).map (fun q => (q, t))) := by
    simp [heatKeys, List.map_map, Function.comp_def]
  rw [hkeys]
  exact pairKeys_nodup _ h

/-- Counterexample to C2: a stored dataset whose two rows share the element
identifier P1 makes the heatmap view's pivot raise, and render_content
propagates the exception instead of catching it. -/
theorem render_content_duplicate_ids_uncaught :
    renderContent .heatmap defaultStyle (some dupDF) none [] [] [] "Blues" 0 =
      .error "ValueError: Index contains duplicate entries, cannot reshape" := by
  rfl

/-- Evaluation of the heatmap tab when the trait filter and the builder both
succeed. -/
theorem renderContent_heatmap_ok_eval (df R : Dataset) (F : Figure)
    (style : StyleConfig) (ts : List String) (scale : String) (a : Nat)
    (hre : df.rows.isEmpty = false)
    (hfil : filterByTraits df ts = .ok R)
    (hheat : createHeatmap R scale style = .ok F) :
    renderContent .heatmap style (some df) none [] [] ts scale a =
      .ok (.graph F) := by
  simp [renderContent, hre, hfil, hheat]

/-- C2 (amended): not every error branch is caught. The upload handler does
catch parse failures, but render_content propagates exceptions raised while
building a chart: a dataset with duplicate element identifiers crashes the
heatmap pivot (see the counterexample). The heatmap view raises no exception
when the selected trait columns exist, the identifier and the four trait
columns exist, and the element identifiers are duplicate-free. -/
theorem render_content_heatmap_guarded (df : Dataset) (style : StyleConfig)
    (ts : List String) (scale : String) (a : Nat)
    (hts : ∀ t ∈ ts, t ∈ df.cols)
    (hpidc : "Plasmid_ID" ∈ df.cols)
    (htrc : ∀ t ∈ fourTraits, t ∈ df.cols)
    (hnd : (df.rows.map (fun r => getVal r "Plasmid_ID")).Nodup) :
    ∃ c, renderContent .heatmap style (some df) none [] [] ts scale a = .ok c := by
  by_cases hre : df.rows.isEmpty = true
  · exact ⟨.message "Please upload a dataset.", by simp [renderContent, hre]⟩
  · replace hre : df.rows.isEmpty = false := by simpa using hre
    obtain ⟨R, hfil, hRc, hRr⟩ :
        ∃ R, filterByTraits df ts = .ok R ∧ R.cols = df.cols ∧
          R.rows = df.rows.filter (fun r => ts.all (fun t => !(isNo (getVal r t)))) :=
      ⟨_, filterByTraits_ok_of_cols df ts hts, rfl, rfl⟩
    have hndR : (R.rows.map (fun r => getVal r "Plasmid_ID")).Nodup := by
      rw [hRr]
      exact hnd.sublist ((List.filter_sublist _).map _)
    by_cases hfe : dfEmpty R = true
    · exact ⟨.graph .empty,
        renderContent_heatmap_ok_eval df R .empty style ts scale a hre hfil
          (by rw [createHeatmap, if_pos hfe])⟩
    · refine ⟨.graph (.heatmap ⟨meltEntries R, scale, style.bg_color, style.font_size⟩),
        renderContent_heatmap_ok_eval df R _ style ts scale a hre hfil ?_⟩
      rw [createHeatmap, if_neg hfe,
        if_pos ⟨show "Plasmid_ID" ∈ R.cols by rw [hRc]; exact hpidc,
          fun t ht => show t ∈ R.cols by rw [hRc]; exact htrc t ht⟩,
        if_pos (heatKeys_nodup_of_pids R hndR)]

/-- Witness for the amended C2 on the sample dataset. -/
theorem render_content_heatmap_guarded_witness :
    ∃ c, renderContent .heatmap defaultStyle (some wDF) none [] [] ["ARGs"]
      "Blues" 0 = .ok c :=
  render_content_heatmap_guarded wDF defaultStyle ["ARGs"] "Blues" 0
    (by decide) (by decide) (by decide) (by decide)

end PlasmidFlow
